import Mathlib

/-!
# Verification of the activity-tracking core of `horas-trabalhadas`

Shallow embedding of `src/main.js` (an Electron work-hours tracker) and
proofs about it.  Modelling conventions:

* Wall-clock instants are local-epoch milliseconds (`Int`): the value of a
  JS `Date` shifted so that local midnights fall on multiples of a day.
  `getLocalDateStr` (main.js:6-11) returns a `YYYY-MM-DD` string built from
  the *local* calendar fields; since that string is a bijective encoding of
  the local calendar day, we embed it as the day index `t.fdiv msPerDay`.
* `Math.floor(x / 1000)` on integer millisecond differences is `Int.fdiv`.
* `desktop-idle` / PowerShell idle probes return fractional seconds
  (`millis / 1000` is JS float division), so idle readings are `ℚ`.
* The persisted JSON file is `FileState`: `missing` (no file), `corrupt`
  (present but `JSON.parse` throws), or `ok m` with `m` a map from day
  index to the stored value for that date.
* A nullable JS millisecond timestamp is `Option Int`; JS truthiness of
  such a value (`null` and `0` are falsy) is `truthy`.
-/

/-- One local calendar day in milliseconds. -/
def msPerDay : Int := 86400000

/-- Embeds `getLocalDateStr` (main.js:6-11): the local `YYYY-MM-DD` string of
an instant, encoded as the local day index. -/
def getLocalDateStr (t : Int) : Int := t.fdiv msPerDay

/-- JS truthiness of a nullable millisecond timestamp (`null` and `0` are
falsy, every other number truthy). -/
def truthy : Option Int → Bool
  | none => false
  | some v => v != 0

/-- One committed session (main.js:24): `{ start: ISO, end: ISO, duration: seconds }`.
Start/end are stored as ISO strings but only ever compared as `Date`s, so we
keep them as millisecond instants. -/
structure Session where
  start : Int
  «end» : Int
  duration : Int
deriving DecidableEq

/-- The per-day notification flags (main.js:35-39). -/
structure NotifFlags where
  h6 : Bool
  h8 : Bool
  h10 : Bool
deriving DecidableEq

/-- The in-memory tracking state `trackingData` (main.js:19-40). -/
structure TrackingData where
  currentSessionStart : Option Int
  sessions : List Session
  currentDate : Int
  status : String
  isTracking : Bool
  lastActiveTime : ℚ
  notificationsSent : NotifFlags
deriving DecidableEq

/-- The initial value of `trackingData` (main.js:19-40), parameterised by the
module-load instant `t` (used for `currentDate` and `lastActiveTime`). -/
def initialTrackingData (t : Int) : TrackingData :=
  { currentSessionStart := none
    sessions := []
    currentDate := getLocalDateStr t
    status := "Initializing"
    isTracking := false
    lastActiveTime := (t : ℚ)
    notificationsSent := ⟨false, false, false⟩ }

/-- A value stored under one date key of the JSON file: either the current
`{ total, sessions }` object or a legacy bare number of seconds
(main.js:64-74 handles both shapes). -/
inductive JVal where
  | obj (total : Int) (sessions : List Session)
  | num (n : Int)
deriving DecidableEq

/-- The parsed contents of `time-tracker-data.json`: day index ↦ stored value. -/
def Store : Type := Int → Option JVal

def emptyStore : Store := fun _ => none

def storeSet (m : Store) (k : Int) (v : JVal) : Store :=
  fun k' => if k' = k then some v else m k'

/-- The state of the data file on disk as `fs`/`JSON.parse` see it. -/
inductive FileState where
  | missing
  | corrupt
  | ok (m : Store)

/-- The `{ total, sessions }` object written by `saveData` (main.js:93-99):
`total` is the recomputed sum of the sessions' durations. -/
def mkDayObj (sessions : List Session) : JVal :=
  JVal.obj (sessions.foldl (fun acc s => acc + s.duration) 0) sessions

/-- Embeds `saveData` (main.js:83-105): read the whole file fresh (missing
file ↦ `{}`), overwrite the single entry for `dateKey` with the recomputed
day object, write the whole file back.  A corrupt file makes `JSON.parse`
throw before the write, so the outer `catch` leaves the file untouched. -/
def saveData (file : FileState) (dateKey : Int) (sessions : List Session) : FileState :=
  match file with
  | .corrupt => .corrupt
  | .missing => .ok (storeSet emptyStore dateKey (mkDayObj sessions))
  | .ok m => .ok (storeSet m dateKey (mkDayObj sessions))

/-- Embeds `loadData` (main.js:55-80), acting on the initial tracking state:
missing file ⇒ the `existsSync` guard skips everything; corrupt file ⇒
`JSON.parse` throws before any field is written and the `catch` only logs;
otherwise `currentDate` is set to today and today's sessions are taken from
the stored object (legacy numeric entries and absent entries both yield `[]`). -/
def loadData (file : FileState) (now : Int) (td : TrackingData) : TrackingData :=
  match file with
  | .missing => td
  | .corrupt => td
  | .ok m =>
      let today := getLocalDateStr now
      let td1 := { td with currentDate := today }
      match m today with
      | some (.obj _ ss) => { td1 with sessions := ss }
      | some (.num _) => { td1 with sessions := [] }
      | none => { td1 with sessions := [] }

/-- Embeds the `get-history` IPC handler (main.js:425-435): missing file ⇒
`{}`, parse/read error ⇒ caught and `{}`, else the full parsed mapping. -/
def getHistory (file : FileState) : Store :=
  match file with
  | .missing => emptyStore
  | .corrupt => emptyStore
  | .ok m => m

/-! ## Sensors -/

/-- Outcome of the `tasklist` process-presence probe (main.js:158-169):
either `exec` errors, or it yields output that does / does not mention
`chrome.exe`. -/
inductive ChromeProbe where
  | err
  | ok (containsChrome : Bool)

/-- Embeds `isChromeRunning` (main.js:158-169): an exec error resolves
`false`, otherwise the substring test on the output. -/
def isChromeRunning : ChromeProbe → Bool
  | .err => false
  | .ok c => c

/-- Outcome of one PowerShell idle probe (main.js:181-194): `exec` errors,
or produces output whose `parseInt` is `NaN` (`out none`) or a millisecond
count (`out (some millis)`). -/
inductive PsOutcome where
  | err
  | out (parsed : Option Int)

/-- Embeds `getIdleTimePs` (main.js:172-196): error ⇒ `0`, `NaN` ⇒ `0`,
else `millis / 1000` (JS float division, hence `ℚ`). -/
def getIdleTimePs : PsOutcome → ℚ
  | .err => 0
  | .out none => 0
  | .out (some millis) => (millis : ℚ) / 1000

/-- Outcome of one `getIdleTime` call (main.js:209-221): the `desktop-idle`
library returns a value, or it throws and the PowerShell fallback runs, or
the process is already in fallback mode and only PowerShell runs. -/
inductive IdleOutcome where
  | lib (seconds : ℚ)
  | libErr (fallback : PsOutcome)
  | fallback (ps : PsOutcome)

/-- Embeds `getIdleTime` (main.js:209-221). -/
def getIdleTime : IdleOutcome → ℚ
  | .lib s => s
  | .libErr p => getIdleTimePs p
  | .fallback p => getIdleTimePs p

/-- The per-tick classification (main.js:267-271):
`working ⇔ Chrome open ∧ idle < 120 s`. -/
def classifyWorking (c : ChromeProbe) (i : IdleOutcome) : Bool :=
  isChromeRunning c && decide (getIdleTime i < 120)

/-! ## The step function `checkActivity`, split into its numbered phases -/

/-- Phase 1 of `checkActivity` (main.js:224-265), the day-rollover check.
If the local date of `now` differs from `currentDate`: when a session is
open (`isTracking` and a truthy start), close it at `now`, append it to the
old day's list when its duration is positive, flush to the old date, then
reset for the new day and reopen at `now`; otherwise just flush and switch
days.  Notification flags are reset in both branches. -/
def rolloverPhase (td : TrackingData) (file : FileState) (now : Int) :
    TrackingData × FileState :=
  let todayStr := getLocalDateStr now
  if todayStr ≠ td.currentDate then
    match td.currentSessionStart with
    | some st =>
      if td.isTracking && (st != 0) then
        let duration := (now - st).fdiv 1000
        let sessions1 :=
          if duration > 0 then td.sessions ++ [⟨st, now, duration⟩] else td.sessions
        let file1 := saveData file td.currentDate sessions1
        ({ td with sessions := []
                   currentDate := todayStr
                   currentSessionStart := some now
                   notificationsSent := ⟨false, false, false⟩ }, file1)
      else
        ({ td with sessions := []
                   currentDate := todayStr
                   notificationsSent := ⟨false, false, false⟩ },
         saveData file td.currentDate td.sessions)
    | none =>
        ({ td with sessions := []
                   currentDate := todayStr
                   notificationsSent := ⟨false, false, false⟩ },
         saveData file td.currentDate td.sessions)
  else (td, file)

/-- Phase 3 of `checkActivity` (main.js:273-313), the state transition.
Working: open a session at `now` if none is open, status `Tracking (Working)`.
Not working: if tracking, stop; with a truthy open start, commit the session
when its duration is positive (and flush immediately) and clear the start;
status reflects which sensor caused the pause.  The `lastActiveTime` writes
here (main.js:282) are dead — unconditionally overwritten at main.js:327-328 —
so they are applied afterwards in `checkActivity`. -/
def transitionPhase (td : TrackingData) (file : FileState) (now : Int)
    (chromeOpen isWorking : Bool) : TrackingData × FileState :=
  if isWorking then
    let td1 :=
      if !td.isTracking then
        { td with isTracking := true, currentSessionStart := some now }
      else td
    ({ td1 with status := "Tracking (Working)" }, file)
  else
    let tf1 : TrackingData × FileState :=
      if td.isTracking then
        let td' := { td with isTracking := false }
        match td.currentSessionStart with
        | some st =>
          if st != 0 then
            let duration := (now - st).fdiv 1000
            if duration > 0 then
              let sessions1 := td.sessions ++ [⟨st, now, duration⟩]
              ({ td' with sessions := sessions1, currentSessionStart := none },
               saveData file td.currentDate sessions1)
            else
              ({ td' with currentSessionStart := none }, file)
          else (td', file)
        | none => (td', file)
      else (td, file)
    ({ tf1.1 with status := if !chromeOpen then "Paused (Chrome Closed)" else "Paused (Idle)" },
     tf1.2)

/-- The per-session overlap-with-today computation inside the aggregate
(main.js:343-361): clamp to `[startOfDay, endOfDay]`, floor the positive
overlap to whole seconds. -/
def clipOverlap (sStart sEnd startOfDay endOfDay : Int) : Int :=
  let overlapStart := if sStart < startOfDay then startOfDay else sStart
  let overlapEnd := if sEnd > endOfDay then endOfDay else sEnd
  if overlapStart < overlapEnd then (overlapEnd - overlapStart).fdiv 1000 else 0

/-- Phase 4 of `checkActivity` (main.js:331-374), the daily aggregate:
sum of each committed session's clipped overlap with today, plus the clipped
open session when `isTracking` and its start is truthy. -/
def aggregatePhase (td : TrackingData) (now : Int) : Int :=
  let startOfDay := getLocalDateStr now * msPerDay
  let endOfDay := startOfDay + msPerDay
  let base := td.sessions.foldl
    (fun acc s => acc + clipOverlap s.start s.«end» startOfDay endOfDay) 0
  match td.currentSessionStart with
  | some st =>
      if td.isTracking && (st != 0) then base + clipOverlap st now startOfDay endOfDay
      else base
  | none => base

/-- Phase 5 of `checkActivity` (main.js:376-388), the three threshold
notifications, in source order; returns the updated state and which
notifications fired this tick. -/
def notifyPhase (td : TrackingData) (total : Int) : TrackingData × NotifFlags :=
  let f6 := !td.notificationsSent.h6 && decide (total ≥ 21600)
  let s1 := if f6 then { td with notificationsSent := { td.notificationsSent with h6 := true } } else td
  let f8 := !s1.notificationsSent.h8 && decide (total ≥ 28800)
  let s2 := if f8 then { s1 with notificationsSent := { s1.notificationsSent with h8 := true } } else s1
  let f10 := !s2.notificationsSent.h10 && decide (total ≥ 36000)
  let s3 := if f10 then { s2 with notificationsSent := { s2.notificationsSent with h10 := true } } else s2
  (s3, ⟨f6, f8, f10⟩)

/-- The sensor readings and wall clock consumed by one tick. -/
structure TickInput where
  now : Int
  chrome : ChromeProbe
  idle : IdleOutcome

/-- The snapshot pushed to the renderer each tick (main.js:391-399). -/
structure Snapshot where
  totalSeconds : Int
  status : String
  isTracking : Bool
  lastActiveTime : ℚ
  currentDate : Int
deriving DecidableEq

/-- Everything one tick produces: the new tracking state, the new file
state, which notifications fired, and the UI snapshot. -/
structure StepResult where
  data : TrackingData
  file : FileState
  fired : NotifFlags
  snapshot : Snapshot

/-- Embeds one invocation of `checkActivity` (main.js:223-400), with the
tick's wall clock and both sensor outcomes as explicit inputs.  The two
`Date.now()` reads inside one tick are identified with `inp.now`. -/
def checkActivity (td : TrackingData) (file : FileState) (inp : TickInput) :
    StepResult :=
  let tf1 := rolloverPhase td file inp.now
  let chromeOpen := isChromeRunning inp.chrome
  let isWorking := classifyWorking inp.chrome inp.idle
  let idleSeconds := getIdleTime inp.idle
  let tf2 := transitionPhase tf1.1 tf1.2 inp.now chromeOpen isWorking
  -- main.js:327-328: displayLastActive unconditionally overwrites lastActiveTime
  let td3 := { tf2.1 with lastActiveTime :=
    if isWorking then (inp.now : ℚ) else (inp.now : ℚ) - idleSeconds * 1000 }
  let total := aggregatePhase td3 inp.now
  let nf := notifyPhase td3 total
  { data := nf.1
    file := tf2.2
    fired := nf.2
    snapshot :=
      { totalSeconds := total
        status := nf.1.status
        isTracking := nf.1.isTracking
        lastActiveTime := nf.1.lastActiveTime
        currentDate := nf.1.currentDate } }

/-- A run of consecutive ticks; collects the per-tick fired flags in order. -/
def runTicks (td : TrackingData) (file : FileState) :
    List TickInput → TrackingData × FileState × List NotifFlags
  | [] => (td, file, [])
  | inp :: rest =>
      let r := checkActivity td file inp
      let rr := runTicks r.data r.file rest
      (rr.1, rr.2.1, r.fired :: rr.2.2)

/-! ## Process termination and tick scheduling -/

/-- Embeds the effect of process termination on the tracking state and the
data file.  The only termination-related code is: the tray `Quit` item
(main.js:112-121) sets `isQuitting` and calls `app.quit()`, the window
`close` handler (main.js:146-152) lets the close through once `isQuitting`
is set, and the `window-all-closed` handler (main.js:462-464) does nothing.
No `before-quit`/`will-quit` hook exists, so termination touches neither
`trackingData` nor the file; the `Bool` records whether a save happened. -/
def onQuit (td : TrackingData) (file : FileState) :
    TrackingData × FileState × Bool :=
  (td, file, false)

/-- Scheduler events: a 1-second timer fire, or completion of a running
`checkActivity` step. -/
inductive SchedEvent where
  | timerFire
  | stepComplete

/-- Number of `checkActivity` invocations in flight after a sequence of
scheduler events.  The interval callback (main.js:451-454) invokes the
async `checkActivity()` unconditionally — no in-progress flag exists in the
source — so every timer fire starts a step and every completion ends one. -/
def inFlightAfter (evs : List SchedEvent) : Int :=
  evs.foldl (fun n e => match e with | .timerFire => n + 1 | .stepComplete => n - 1) 0

/-! ## Spec-side definitions (for refinement claims) -/

/-- Spec-side clip, transcribed from the spec's aggregate sentence: the
duration of the intersection of `[a, b]` with
`[start_of_local_day(now), start_of_local_day(now) + 24h)`, floored to
whole seconds. -/
def specClip (a b now : Int) : Int :=
  let sod := getLocalDateStr now * msPerDay
  let eod := sod + msPerDay
  (max 0 (min b eod - max a sod)).fdiv 1000

/-- Spec-side daily total, transcribed from the spec: the sum over all
committed sessions of the clipped duration, plus the clipped duration of
the open session if one is open. -/
def specDailyTotal (td : TrackingData) (now : Int) : Int :=
  (td.sessions.map (fun s => specClip s.start s.«end» now)).sum +
    (if td.isTracking then
      match td.currentSessionStart with
      | some st => specClip st now now
      | none => 0
    else 0)

/-- The sessions stored in the file under a given date key. -/
def sessionsAt (file : FileState) (d : Int) : List Session :=
  match file with
  | .ok m =>
      match m d with
      | some (.obj _ ss) => ss
      | _ => []
  | _ => []

/-- Lookup of one date key in the file. -/
def fileLookup (file : FileState) (k : Int) : Option JVal :=
  match file with
  | .ok m => m k
  | _ => none

/-- A session with consistent, positive duration: what the spec requires of
every committed session. -/
def goodSession (s : Session) : Prop :=
  s.start < s.«end» ∧ s.duration = (s.«end» - s.start).fdiv 1000 ∧ 0 < s.duration

/-! ## Concrete instances used by counterexamples and witnesses -/

/-- C1 counterexample state: freshly initialised, not tracking. -/
def tdC1 : TrackingData := initialTrackingData 5000

/-- C2 counterexample state: a session opened at 23:58:20 of local day 0,
still open. -/
def tdC2 : TrackingData :=
  { currentSessionStart := some 86300000
    sessions := []
    currentDate := 0
    status := "Tracking (Working)"
    isTracking := true
    lastActiveTime := 86300000
    notificationsSent := ⟨false, false, false⟩ }

/-- C2 counterexample tick: 00:00:01 of local day 1, still working. -/
def inpC2 : TickInput := { now := 86401000, chrome := .ok true, idle := .lib 0 }

/-- C2 witness state (pause-commit part): a session open since 1000000 ms
on day 0. -/
def tdC2w : TrackingData :=
  { currentSessionStart := some 1000000
    sessions := []
    currentDate := 0
    status := "Tracking (Working)"
    isTracking := true
    lastActiveTime := 1000000
    notificationsSent := ⟨false, false, false⟩ }

/-- C2 witness tick (pause-commit part): same day, Chrome probe fails, so
the open session is committed. -/
def inpC2w : TickInput := { now := 5000000, chrome := .err, idle := .lib 0 }

/-- C3 failing state: a session open for 1000 s, nothing persisted yet. -/
def tdC3 : TrackingData :=
  { currentSessionStart := some 1000000
    sessions := []
    currentDate := 0
    status := "Tracking (Working)"
    isTracking := true
    lastActiveTime := 1000000
    notificationsSent := ⟨false, false, false⟩ }

/-- C5 witness state: one committed session and one open session, day 0. -/
def tdC5w : TrackingData :=
  { currentSessionStart := some 1000000
    sessions := [⟨2000000, 5000000, 3000⟩]
    currentDate := 0
    status := "Tracking (Working)"
    isTracking := true
    lastActiveTime := 0
    notificationsSent := ⟨false, false, false⟩ }

/-- C5 witness tick: same day, working. -/
def inpC5w : TickInput := { now := 7000000, chrome := .ok true, idle := .lib 0 }

/-- C6 witness state: 30000 s already committed for day 0, no flags set. -/
def tdC6w : TrackingData :=
  { currentSessionStart := none
    sessions := [⟨0, 30000000, 30000⟩]
    currentDate := 0
    status := "Initializing"
    isTracking := false
    lastActiveTime := 0
    notificationsSent := ⟨false, false, false⟩ }

/-- C6 witness state with the 6-hour flag already set. -/
def tdC6w2 : TrackingData :=
  { tdC6w with notificationsSent := ⟨true, false, false⟩ }

/-- C6 witness tick: same day 0, not working. -/
def inpC6w1 : TickInput := { now := 40000000, chrome := .err, idle := .lib 0 }

/-- C6 witness tick list: two same-day ticks above the 6h/8h thresholds. -/
def inpsC6w : List TickInput :=
  [inpC6w1, { now := 40001000, chrome := .err, idle := .lib 0 }]

/-- C7 witness state: a session open since 1000000 ms on day 0. -/
def tdC7w : TrackingData :=
  { currentSessionStart := some 1000000
    sessions := []
    currentDate := 0
    status := "Tracking (Working)"
    isTracking := true
    lastActiveTime := 0
    notificationsSent := ⟨false, false, false⟩ }

/-- C7 witness tick: same day, Chrome probe fails, so the session commits. -/
def inpC7w : TickInput := { now := 5000000, chrome := .err, idle := .lib 0 }

/-- C8 witness store: day 5 holds a legacy numeric entry. -/
def storeC8 : Store := storeSet emptyStore 5 (.num 7)

/-- C8 witness state: idle tracker on day 0. -/
def tdC8w : TrackingData := initialTrackingData 0

/-- C8 witness tick: same day, nothing to commit. -/
def inpC8w : TickInput := { now := 1000, chrome := .err, idle := .lib 0 }

/-- C10 persisted file: today (day 0) already holds a committed session of
22000 s ≥ 21600 s. -/
def fileC10 : FileState := .ok (storeSet emptyStore 0 (.obj 22000 [⟨0, 22000000, 22000⟩]))

/-! ## Helper lemmas -/

lemma notify_keeps (td : TrackingData) (t : Int) :
    (notifyPhase td t).1.sessions = td.sessions ∧
    (notifyPhase td t).1.currentSessionStart = td.currentSessionStart ∧
    (notifyPhase td t).1.isTracking = td.isTracking ∧
    (notifyPhase td t).1.currentDate = td.currentDate := by
  simp only [notifyPhase]
  repeat' split
  all_goals simp

lemma transition_keeps (td : TrackingData) (file : FileState) (now : Int)
    (c w : Bool) :
    (transitionPhase td file now c w).1.currentDate = td.currentDate ∧
    (transitionPhase td file now c w).1.notificationsSent = td.notificationsSent := by
  simp only [transitionPhase]
  repeat' split
  all_goals simp

lemma transition_start (td : TrackingData) (file : FileState) (now : Int)
    (c w : Bool) :
    (transitionPhase td file now c w).1.currentSessionStart = none ∨
    (transitionPhase td file now c w).1.currentSessionStart = td.currentSessionStart ∨
    (transitionPhase td file now c w).1.currentSessionStart = some now := by
  simp only [transitionPhase]
  repeat' split
  all_goals simp

lemma rollover_start (td : TrackingData) (file : FileState) (now : Int) :
    (rolloverPhase td file now).1.currentSessionStart = td.currentSessionStart ∨
    (rolloverPhase td file now).1.currentSessionStart = some now := by
  simp only [rolloverPhase]
  repeat' split
  all_goals simp

lemma rollover_sameDay (td : TrackingData) (file : FileState) (now : Int)
    (h : getLocalDateStr now = td.currentDate) :
    rolloverPhase td file now = (td, file) := by
  simp only [rolloverPhase]
  simp [h]

lemma notify_flags (td : TrackingData) (t : Int) :
    ((notifyPhase td t).1.notificationsSent.h6
        = (td.notificationsSent.h6 || (notifyPhase td t).2.h6)) ∧
    ((notifyPhase td t).2.h6 = true → td.notificationsSent.h6 = false) ∧
    ((notifyPhase td t).1.notificationsSent.h8
        = (td.notificationsSent.h8 || (notifyPhase td t).2.h8)) ∧
    ((notifyPhase td t).2.h8 = true → td.notificationsSent.h8 = false) ∧
    ((notifyPhase td t).1.notificationsSent.h10
        = (td.notificationsSent.h10 || (notifyPhase td t).2.h10)) ∧
    ((notifyPhase td t).2.h10 = true → td.notificationsSent.h10 = false) := by
  simp only [notifyPhase]
  repeat' split
  all_goals simp_all

lemma notify_fired_sets (td : TrackingData) (t : Int) :
    ((notifyPhase td t).2.h6 = true → (notifyPhase td t).1.notificationsSent.h6 = true) ∧
    ((notifyPhase td t).2.h8 = true → (notifyPhase td t).1.notificationsSent.h8 = true) ∧
    ((notifyPhase td t).2.h10 = true → (notifyPhase td t).1.notificationsSent.h10 = true) := by
  obtain ⟨a, -, b, -, c, -⟩ := notify_flags td t
  refine ⟨fun h => ?_, fun h => ?_, fun h => ?_⟩
  · rw [a, h, Bool.or_true]
  · rw [b, h, Bool.or_true]
  · rw [c, h, Bool.or_true]

lemma foldl_add_eq_sum {α : Type} (f : α → Int) :
    ∀ (l : List α) (a : Int), l.foldl (fun acc s => acc + f s) a = a + (l.map f).sum
  | [], a => by simp
  | x :: xs, a => by
      simp only [List.foldl_cons, List.map_cons, List.sum_cons]
      rw [foldl_add_eq_sum f xs]
      ring

lemma clipOverlap_eq_specClip (a b now : Int) :
    clipOverlap a b (getLocalDateStr now * msPerDay) (getLocalDateStr now * msPerDay + msPerDay)
      = specClip a b now := by
  unfold clipOverlap specClip
  dsimp only
  have e1 : (if a < getLocalDateStr now * msPerDay then getLocalDateStr now * msPerDay else a)
      = max a (getLocalDateStr now * msPerDay) := by split <;> omega
  have e2 : (if b > getLocalDateStr now * msPerDay + msPerDay
        then getLocalDateStr now * msPerDay + msPerDay else b)
      = min b (getLocalDateStr now * msPerDay + msPerDay) := by split <;> omega
  rw [e1, e2]
  split
  · congr 1
    omega
  · have : max 0 (min b (getLocalDateStr now * msPerDay + msPerDay)
        - max a (getLocalDateStr now * msPerDay)) = 0 := by omega
    rw [this]
    exact (Int.zero_fdiv _).symm

lemma good_push (st now : Int) (h : 0 < (now - st).fdiv 1000) :
    goodSession ⟨st, now, (now - st).fdiv 1000⟩ := by
  refine ⟨?_, rfl, h⟩
  show st < now
  rw [Int.fdiv_eq_ediv _ (by norm_num : (0:Int) ≤ 1000)] at h
  omega

lemma specClip_self (now : Int) : specClip now now now = 0 := by
  unfold specClip
  dsimp only
  have : max 0 (min now (getLocalDateStr now * msPerDay + msPerDay)
      - max now (getLocalDateStr now * msPerDay)) = 0 := by omega
  rw [this]
  exact Int.zero_fdiv _

lemma agg_eq_spec (td : TrackingData) (now : Int)
    (h : td.currentSessionStart = some 0 → td.isTracking = true → now = 0) :
    aggregatePhase td now = specDailyTotal td now := by
  unfold aggregatePhase specDailyTotal
  dsimp only
  rw [foldl_add_eq_sum, Int.zero_add]
  have hmap : (td.sessions.map (fun s =>
        clipOverlap s.start s.«end» (getLocalDateStr now * msPerDay)
          (getLocalDateStr now * msPerDay + msPerDay))).sum
      = (td.sessions.map (fun s => specClip s.start s.«end» now)).sum := by
    congr 1
    exact List.map_congr_left (fun s _ => clipOverlap_eq_specClip s.start s.«end» now)
  rw [hmap]
  cases hs : td.currentSessionStart with
  | none =>
      cases td.isTracking <;> simp
  | some st =>
      cases htr : td.isTracking with
      | false => simp
      | true =>
          by_cases h0 : st = 0
          · subst h0
            have hnow : now = 0 := h hs htr
            subst hnow
            simp [specClip_self]
          · have : (st != 0) = true := by simpa using h0
            simp only [this, Bool.and_true, if_true, Bool.true_and, if_pos]
            rw [clipOverlap_eq_specClip]

lemma specDailyTotal_congr (td td' : TrackingData) (now : Int)
    (hs : td'.sessions = td.sessions)
    (hc : td'.currentSessionStart = td.currentSessionStart)
    (ht : td'.isTracking = td.isTracking) :
    specDailyTotal td' now = specDailyTotal td now := by
  unfold specDailyTotal
  rw [hs, hc, ht]

lemma agg_notify_spec (td3 : TrackingData) (now : Int)
    (h : td3.currentSessionStart = some 0 → td3.isTracking = true → now = 0) :
    aggregatePhase td3 now
      = specDailyTotal (notifyPhase td3 (aggregatePhase td3 now)).1 now := by
  obtain ⟨hs, hc, ht, -⟩ := notify_keeps td3 (aggregatePhase td3 now)
  rw [specDailyTotal_congr td3 _ now hs hc ht]
  exact agg_eq_spec td3 now h

lemma step_sameDay_flags (td : TrackingData) (file : FileState) (inp : TickInput)
    (h : getLocalDateStr inp.now = td.currentDate) :
    (checkActivity td file inp).data.currentDate = td.currentDate ∧
    ((checkActivity td file inp).data.notificationsSent.h6
        = (td.notificationsSent.h6 || (checkActivity td file inp).fired.h6)) ∧
    ((checkActivity td file inp).fired.h6 = true → td.notificationsSent.h6 = false) ∧
    ((checkActivity td file inp).data.notificationsSent.h8
        = (td.notificationsSent.h8 || (checkActivity td file inp).fired.h8)) ∧
    ((checkActivity td file inp).fired.h8 = true → td.notificationsSent.h8 = false) ∧
    ((checkActivity td file inp).data.notificationsSent.h10
        = (td.notificationsSent.h10 || (checkActivity td file inp).fired.h10)) ∧
    ((checkActivity td file inp).fired.h10 = true → td.notificationsSent.h10 = false) := by
  have key : ∀ (td3 : TrackingData) (t : Int),
      td3.notificationsSent = td.notificationsSent →
      td3.currentDate = td.currentDate →
      (notifyPhase td3 t).1.currentDate = td.currentDate ∧
      ((notifyPhase td3 t).1.notificationsSent.h6
          = (td.notificationsSent.h6 || (notifyPhase td3 t).2.h6)) ∧
      ((notifyPhase td3 t).2.h6 = true → td.notificationsSent.h6 = false) ∧
      ((notifyPhase td3 t).1.notificationsSent.h8
          = (td.notificationsSent.h8 || (notifyPhase td3 t).2.h8)) ∧
      ((notifyPhase td3 t).2.h8 = true → td.notificationsSent.h8 = false) ∧
      ((notifyPhase td3 t).1.notificationsSent.h10
          = (td.notificationsSent.h10 || (notifyPhase td3 t).2.h10)) ∧
      ((notifyPhase td3 t).2.h10 = true → td.notificationsSent.h10 = false) := by
    intro td3 t h3n h3d
    have hnk := notify_keeps td3 t
    have hnf := notify_flags td3 t
    refine ⟨by rw [hnk.2.2.2, h3d], by rw [hnf.1, h3n], ?_,
            by rw [hnf.2.2.1, h3n], ?_, by rw [hnf.2.2.2.2.1, h3n], ?_⟩
    · intro hf; rw [← h3n]; exact hnf.2.1 hf
    · intro hf; rw [← h3n]; exact hnf.2.2.2.1 hf
    · intro hf; rw [← h3n]; exact hnf.2.2.2.2.2 hf
  simp only [checkActivity, rollover_sameDay td file inp.now h]
  apply key
  · exact (transition_keeps td file inp.now (isChromeRunning inp.chrome)
      (classifyWorking inp.chrome inp.idle)).2
  · exact (transition_keeps td file inp.now (isChromeRunning inp.chrome)
      (classifyWorking inp.chrome inp.idle)).1

lemma run_countP_le (p : NotifFlags → Bool)
    (hstep : ∀ (td : TrackingData) (file : FileState) (inp : TickInput),
      getLocalDateStr inp.now = td.currentDate →
      (checkActivity td file inp).data.currentDate = td.currentDate ∧
      p (checkActivity td file inp).data.notificationsSent
        = (p td.notificationsSent || p (checkActivity td file inp).fired) ∧
      (p (checkActivity td file inp).fired = true → p td.notificationsSent = false)) :
    ∀ (inps : List TickInput) (td : TrackingData) (file : FileState) (d : Int),
      td.currentDate = d → (∀ i ∈ inps, getLocalDateStr i.now = d) →
      ((runTicks td file inps).2.2.countP p) ≤ (if p td.notificationsSent then 0 else 1)
  | [], td, file, d, hd, hin => by
      simp only [runTicks, List.countP_nil]
      split <;> omega
  | inp :: rest, td, file, d, hd, hin => by
      have hsame : getLocalDateStr inp.now = td.currentDate := by
        rw [hd]; exact hin inp (by simp)
      obtain ⟨hcd, hflag, hfire⟩ := hstep td file inp hsame
      have ih := run_countP_le p hstep rest (checkActivity td file inp).data
        (checkActivity td file inp).file d (by rw [hcd, hd])
        (fun i hi => hin i (by simp [hi]))
      simp only [runTicks, List.countP_cons]
      cases hp : p td.notificationsSent with
      | true =>
          have hf : p (checkActivity td file inp).fired = false := by
            cases hq : p (checkActivity td file inp).fired with
            | false => rfl
            | true => rw [hfire hq] at hp; cases hp
          rw [hflag, hp, hf] at ih
          simp only [hf, Bool.true_or, if_true] at ih ⊢
          simp at ih ⊢
          exact ih
      | false =>
          rw [hflag, hp, Bool.false_or] at ih
          cases hq : p (checkActivity td file inp).fired with
          | false =>
              rw [hq] at ih
              simp only [hq] at *
              simp at ih ⊢
              omega
          | true =>
              rw [hq] at ih
              simp only [hq] at *
              simp at ih ⊢
              try exact ih
              try omega

lemma mem_sessionsAt_save (f : FileState) (k : Int) (ss : List Session) (d : Int)
    (s : Session) (h : s ∈ sessionsAt (saveData f k ss) d) :
    s ∈ ss ∨ s ∈ sessionsAt f d := by
  cases f with
  | corrupt => exact Or.inr h
  | missing =>
      by_cases hdk : d = k
      · subst hdk
        simp [saveData, sessionsAt, storeSet, mkDayObj] at h
        exact Or.inl h
      · simp [saveData, sessionsAt, storeSet, emptyStore, hdk] at h
  | ok m =>
      by_cases hdk : d = k
      · subst hdk
        simp [saveData, sessionsAt, storeSet, mkDayObj] at h
        exact Or.inl h
      · right
        simpa [saveData, sessionsAt, storeSet, hdk] using h

lemma rollover_mem_data (td : TrackingData) (file : FileState) (now : Int)
    (s : Session) (h : s ∈ (rolloverPhase td file now).1.sessions) :
    s ∈ td.sessions := by
  simp only [rolloverPhase] at h
  repeat' split at h
  all_goals simp_all

lemma rollover_mem_file (td : TrackingData) (file : FileState) (now : Int)
    (d : Int) (s : Session) (h : s ∈ sessionsAt (rolloverPhase td file now).2 d) :
    s ∈ sessionsAt file d ∨ s ∈ td.sessions ∨
      ∃ st, s = ⟨st, now, (now - st).fdiv 1000⟩ ∧ 0 < (now - st).fdiv 1000 := by
  simp only [rolloverPhase] at h
  repeat' split at h
  case isTrue st hst htr hdur =>
      rcases mem_sessionsAt_save _ _ _ _ _ h with h1 | h1
      · rcases List.mem_append.mp h1 with h2 | h2
        · exact Or.inr (Or.inl h2)
        · refine Or.inr (Or.inr ⟨st, List.mem_singleton.mp h2, by omega⟩)
      · exact Or.inl h1
  all_goals
    first
    | (rcases mem_sessionsAt_save _ _ _ _ _ h with h1 | h1
       · exact Or.inr (Or.inl h1)
       · exact Or.inl h1)
    | exact Or.inl h

lemma transition_mem_data (td : TrackingData) (file : FileState) (now : Int)
    (c w : Bool) (s : Session)
    (h : s ∈ (transitionPhase td file now c w).1.sessions) :
    s ∈ td.sessions ∨
      ∃ st, td.currentSessionStart = some st ∧
        s = ⟨st, now, (now - st).fdiv 1000⟩ ∧ 0 < (now - st).fdiv 1000 := by
  simp only [transitionPhase] at h
  repeat' split at h
  all_goals simp_all

lemma transition_mem_file (td : TrackingData) (file : FileState) (now : Int)
    (c w : Bool) (d : Int) (s : Session)
    (h : s ∈ sessionsAt (transitionPhase td file now c w).2 d) :
    s ∈ sessionsAt file d ∨ s ∈ td.sessions ∨
      ∃ st, s = ⟨st, now, (now - st).fdiv 1000⟩ ∧ 0 < (now - st).fdiv 1000 := by
  simp only [transitionPhase] at h
  repeat' split at h
  all_goals
    first
    | exact Or.inl h
    | (rcases mem_sessionsAt_save _ _ _ _ _ h with h1 | h1
       · rcases List.mem_append.mp h1 with h2 | h2
         · exact Or.inr (Or.inl h2)
         · refine Or.inr (Or.inr ⟨_, List.mem_singleton.mp h2, by omega⟩)
       · exact Or.inl h1)

lemma sessionsAt_save_self (f : FileState) (k : Int) (ss : List Session)
    (hf : f ≠ FileState.corrupt) :
    sessionsAt (saveData f k ss) k = ss := by
  cases f with
  | corrupt => exact absurd rfl hf
  | missing => simp [saveData, sessionsAt, storeSet, mkDayObj]
  | ok m => simp [saveData, sessionsAt, storeSet, mkDayObj]

lemma rollover_split_eq (td : TrackingData) (file : FileState) (now st : Int)
    (htr : td.isTracking = true) (hst : td.currentSessionStart = some st)
    (hst0 : st ≠ 0) (hroll : getLocalDateStr now ≠ td.currentDate)
    (hdur : 0 < (now - st).fdiv 1000) :
    rolloverPhase td file now =
      ({ td with sessions := []
                 currentDate := getLocalDateStr now
                 currentSessionStart := some now
                 notificationsSent := ⟨false, false, false⟩ },
       saveData file td.currentDate
         (td.sessions ++ [⟨st, now, (now - st).fdiv 1000⟩])) := by
  have hb : (st != 0) = true := by simpa using hst0
  simp only [rolloverPhase, hst]
  rw [if_pos hroll]
  simp [htr, hb, hdur]

lemma transition_working_tracking (td : TrackingData) (file : FileState)
    (now : Int) (c : Bool) (htr : td.isTracking = true) :
    transitionPhase td file now c true =
      ({ td with status := "Tracking (Working)" }, file) := by
  simp only [transitionPhase]
  simp [htr]

lemma fileLookup_save_other (f : FileState) (k : Int) (ss : List Session)
    (k' : Int) (h : k' ≠ k) :
    fileLookup (saveData f k ss) k' = fileLookup f k' := by
  cases f <;> simp [saveData, fileLookup, storeSet, emptyStore, h]

lemma rollover_file_frame (td : TrackingData) (file : FileState) (now : Int)
    (k : Int) (h : k ≠ td.currentDate) :
    fileLookup (rolloverPhase td file now).2 k = fileLookup file k := by
  simp only [rolloverPhase]
  repeat' split
  all_goals first | rfl | exact fileLookup_save_other _ _ _ _ h

lemma transition_file_frame (td : TrackingData) (file : FileState) (now : Int)
    (c w : Bool) (k : Int) (h : k ≠ td.currentDate) :
    fileLookup (transitionPhase td file now c w).2 k = fileLookup file k := by
  simp only [transitionPhase]
  repeat' split
  all_goals first | rfl | exact fileLookup_save_other _ _ _ _ h

/-! ## Claim C1 — sensor failures and the derived `working` value -/

/-- C1 counterexample: on a tick whose idle probe fails (`exec` errors in
`getIdleTimePs`) while the process-presence probe reports Chrome open, the
derived `working` value is `true`, not `false` — the failed idle probe is
substituted with `0` ("not idle"), so the tick even opens a session.  This
refutes the claim that any sensor failure forces `working = false`
regardless of the other sensor's reading. -/
theorem claim_C1_cex :
    classifyWorking (ChromeProbe.ok true) (IdleOutcome.fallback PsOutcome.err) = true ∧
    (checkActivity tdC1 (.ok emptyStore)
      { now := 5000, chrome := .ok true, idle := .fallback .err }).data.isTracking = true := by
  constructor <;> decide

/-- C1 amended: a failing process-presence query forces `working = false`
regardless of the idle reading; a failing idle probe (exec error or
non-numeric output, on either the fallback or the library-error path) is
substituted with idle `0`, so the derived `working` for that tick equals
the process-presence reading rather than being forced to `false`. -/
theorem claim_C1_amended :
    (∀ i : IdleOutcome, classifyWorking ChromeProbe.err i = false) ∧
    (∀ c : ChromeProbe,
      classifyWorking c (IdleOutcome.fallback PsOutcome.err) = isChromeRunning c ∧
      classifyWorking c (IdleOutcome.fallback (PsOutcome.out none)) = isChromeRunning c ∧
      classifyWorking c (IdleOutcome.libErr PsOutcome.err) = isChromeRunning c ∧
      classifyWorking c (IdleOutcome.libErr (PsOutcome.out none)) = isChromeRunning c) := by
  constructor
  · intro i
    simp [classifyWorking, isChromeRunning]
  · intro c
    refine ⟨?_, ?_, ?_, ?_⟩ <;>
      simp [classifyWorking, getIdleTime, getIdleTimePs]

/-! ## Claim C2 — session day-consistency and the midnight split -/

/-- C2 counterexample: at the rollover tick the session appended to day 0's
bucket ends at the tick time 86401000 — an instant of local day 1, not the
local midnight 86400000 — so the appended session's `end` falls in a
different local calendar day than `current_date` (still day 0) at the
moment of append, and the first split session does not end at local
midnight. -/
theorem claim_C2_cex :
    sessionsAt (checkActivity tdC2 (.ok emptyStore) inpC2).file 0
      = [⟨86300000, 86401000, 101⟩] ∧
    getLocalDateStr 86401000 = 1 ∧
    (1 : Int) ≠ 0 ∧
    (86401000 : Int) ≠ 86400000 := by
  refine ⟨by decide, by decide, by decide, by decide⟩

/-- C2 amended: (a) at a day rollover with an open, still-working session,
the split's first part is appended to the old day's bucket but ends at the
rollover tick time `now` (an instant of the new day, within one tick of
midnight), and the reopened session starts at that same `now`, so the two
parts share the boundary `now` and their union covers exactly the original
interval; (b) on a tick without rollover, a session appended by the
pause-commit branch has both `start` and `end` in `current_date`'s local
day, provided the open session started in the current day. -/
theorem claim_C2_amended :
    (∀ (td : TrackingData) (file : FileState) (inp : TickInput) (st : Int),
      td.isTracking = true → td.currentSessionStart = some st → st ≠ 0 →
      getLocalDateStr inp.now ≠ td.currentDate →
      0 < (inp.now - st).fdiv 1000 →
      file ≠ FileState.corrupt →
      classifyWorking inp.chrome inp.idle = true →
      sessionsAt (checkActivity td file inp).file td.currentDate
        = td.sessions ++ [⟨st, inp.now, (inp.now - st).fdiv 1000⟩] ∧
      (checkActivity td file inp).data.currentSessionStart = some inp.now ∧
      (checkActivity td file inp).data.currentDate = getLocalDateStr inp.now) ∧
    (∀ (td : TrackingData) (file : FileState) (inp : TickInput) (st : Int),
      getLocalDateStr inp.now = td.currentDate →
      td.currentSessionStart = some st →
      getLocalDateStr st = td.currentDate →
      ∀ s ∈ (checkActivity td file inp).data.sessions,
        s ∈ td.sessions ∨
          (getLocalDateStr s.start = td.currentDate ∧
           getLocalDateStr s.«end» = td.currentDate)) := by
  constructor
  · intro td file inp st htr hst hst0 hroll hdur hfile hwork
    simp only [checkActivity]
    rw [rollover_split_eq td file inp.now st htr hst hst0 hroll hdur, hwork]
    dsimp only
    rw [transition_working_tracking _ _ _ _ (by simp [htr])]
    dsimp only
    refine ⟨sessionsAt_save_self _ _ _ hfile, ?_, ?_⟩
    · rw [(notify_keeps _ _).2.1]
    · rw [(notify_keeps _ _).2.2.2]
  · intro td file inp st hsame hst hstday s hmem
    simp only [checkActivity] at hmem
    rw [(notify_keeps _ _).1] at hmem
    dsimp only at hmem
    rw [rollover_sameDay td file inp.now hsame] at hmem
    rcases transition_mem_data _ _ _ _ _ s hmem with h1 | ⟨st', hst', hseq, -⟩
    · exact Or.inl h1
    · rw [hst] at hst'
      injection hst' with hst'
      subst hst'
      right
      rw [hseq]
      exact ⟨hstday, hsame⟩

/-- C2 witness: both amended parts instantiated — the rollover split at the
counterexample's input, and a same-day pause commit whose appended session
stays inside day 0. -/
theorem claim_C2_amended_witness :
    (sessionsAt (checkActivity tdC2 (.ok emptyStore) inpC2).file tdC2.currentDate
        = tdC2.sessions ++ [⟨86300000, 86401000, 101⟩] ∧
      (checkActivity tdC2 (.ok emptyStore) inpC2).data.currentSessionStart = some 86401000 ∧
      (checkActivity tdC2 (.ok emptyStore) inpC2).data.currentDate = getLocalDateStr 86401000) ∧
    ((⟨1000000, 5000000, 4000⟩ : Session) ∈ tdC2w.sessions ∨
      (getLocalDateStr (1000000 : Int) = tdC2w.currentDate ∧
       getLocalDateStr (5000000 : Int) = tdC2w.currentDate)) := by
  constructor
  · have := claim_C2_amended.1 tdC2 (.ok emptyStore) inpC2 86300000 rfl rfl
      (by decide) (by decide) (by decide) (by intro h; exact FileState.noConfusion h)
      (by decide)
    simpa using this
  · exact claim_C2_amended.2 tdC2w (.ok emptyStore) inpC2w 1000000
      (by decide) rfl (by decide) ⟨1000000, 5000000, 4000⟩ (by decide)

/-! ## Claim C3 — no shutdown flush exists -/

/-- C3 failing input evaluated: quitting with a session open leaves the
tracking state and the file untouched and performs no save — the open
session is neither closed, nor appended, nor persisted, contradicting the
claimed shutdown flush. -/
theorem claim_C3_quit_no_flush :
    onQuit tdC3 (.ok emptyStore) = (tdC3, .ok emptyStore, false) ∧
    tdC3.isTracking = true ∧
    tdC3.currentSessionStart = some 1000000 ∧
    tdC3.sessions = [] ∧
    fileLookup (FileState.ok emptyStore) tdC3.currentDate = none := by
  refine ⟨rfl, rfl, rfl, rfl, rfl⟩

/-! ## Claim C4 — no re-entrancy guard exists -/

/-- C4 failing input evaluated: after two timer fires with no intervening
step completion (sensor latency above the 1-second period), two
`checkActivity` invocations are in flight — the second tick is neither
skipped nor queued, contradicting the claimed at-most-one-step discipline. -/
theorem claim_C4_overlap :
    inFlightAfter [SchedEvent.timerFire, SchedEvent.timerFire] = 2 := rfl

/-! ## Claim C5 — the published daily total -/

/-- C5: on every tick, the published `totalSeconds` equals the spec-side
daily total — the sum over all committed sessions of the floored duration
of the intersection of `[start, end]` with today's local-day window, plus
the same-way-clipped open session — evaluated on the post-step state (the
state the aggregate is computed from).  The hypothesis excludes only the
JS-truthiness artifact of a session started exactly at epoch 0. -/
theorem claim_C5_daily_total (td : TrackingData) (file : FileState) (inp : TickInput)
    (h : td.currentSessionStart ≠ some 0) :
    (checkActivity td file inp).snapshot.totalSeconds
      = specDailyTotal (checkActivity td file inp).data inp.now := by
  simp only [checkActivity]
  apply agg_notify_spec
  intro h0 htr
  dsimp only at h0
  rcases transition_start (rolloverPhase td file inp.now).1 (rolloverPhase td file inp.now).2
      inp.now (isChromeRunning inp.chrome) (classifyWorking inp.chrome inp.idle) with h1 | h1 | h1
  · rw [h1] at h0; cases h0
  · rcases rollover_start td file inp.now with h2 | h2
    · rw [h1, h2] at h0; exact absurd h0 h
    · rw [h1, h2] at h0; injection h0 with h0
  · rw [h1] at h0; injection h0 with h0

/-- C5 witness: the refinement instantiated at a state with one committed
and one open session. -/
theorem claim_C5_daily_total_witness :
    tdC5w.currentSessionStart ≠ some 0 ∧
    (checkActivity tdC5w (.ok emptyStore) inpC5w).snapshot.totalSeconds
      = specDailyTotal (checkActivity tdC5w (.ok emptyStore) inpC5w).data inpC5w.now :=
  ⟨by decide, claim_C5_daily_total tdC5w (.ok emptyStore) inpC5w (by decide)⟩

/-! ## Claim C6 — at-most-once notifications per local day -/

/-- C6: over any run of ticks within one local day, each of the three
thresholds fires at most once (and not at all if its flag is already set);
whenever a threshold fires in a step its flag is set in the resulting
state; and on a tick without rollover a set flag stays set — flags are
never cleared by the aggregate falling back below the threshold. -/
theorem claim_C6_thresholds :
    (∀ (td : TrackingData) (file : FileState) (inps : List TickInput) (d : Int),
      td.currentDate = d → (∀ i ∈ inps, getLocalDateStr i.now = d) →
      ((runTicks td file inps).2.2.countP (fun f => f.h6)
          ≤ (if td.notificationsSent.h6 then 0 else 1)) ∧
      ((runTicks td file inps).2.2.countP (fun f => f.h8)
          ≤ (if td.notificationsSent.h8 then 0 else 1)) ∧
      ((runTicks td file inps).2.2.countP (fun f => f.h10)
          ≤ (if td.notificationsSent.h10 then 0 else 1))) ∧
    (∀ (td : TrackingData) (file : FileState) (inp : TickInput),
      ((checkActivity td file inp).fired.h6 = true →
        (checkActivity td file inp).data.notificationsSent.h6 = true) ∧
      ((checkActivity td file inp).fired.h8 = true →
        (checkActivity td file inp).data.notificationsSent.h8 = true) ∧
      ((checkActivity td file inp).fired.h10 = true →
        (checkActivity td file inp).data.notificationsSent.h10 = true)) ∧
    (∀ (td : TrackingData) (file : FileState) (inp : TickInput),
      getLocalDateStr inp.now = td.currentDate →
      (td.notificationsSent.h6 = true →
        (checkActivity td file inp).data.notificationsSent.h6 = true) ∧
      (td.notificationsSent.h8 = true →
        (checkActivity td file inp).data.notificationsSent.h8 = true) ∧
      (td.notificationsSent.h10 = true →
        (checkActivity td file inp).data.notificationsSent.h10 = true)) := by
  refine ⟨?_, ?_, ?_⟩
  · intro td file inps d hd hin
    refine ⟨?_, ?_, ?_⟩
    · exact run_countP_le (fun f => f.h6)
        (fun td' file' inp' h' =>
          let hs := step_sameDay_flags td' file' inp' h'
          ⟨hs.1, hs.2.1, hs.2.2.1⟩) inps td file d hd hin
    · exact run_countP_le (fun f => f.h8)
        (fun td' file' inp' h' =>
          let hs := step_sameDay_flags td' file' inp' h'
          ⟨hs.1, hs.2.2.2.1, hs.2.2.2.2.1⟩) inps td file d hd hin
    · exact run_countP_le (fun f => f.h10)
        (fun td' file' inp' h' =>
          let hs := step_sameDay_flags td' file' inp' h'
          ⟨hs.1, hs.2.2.2.2.2.1, hs.2.2.2.2.2.2⟩) inps td file d hd hin
  · intro td file inp
    simp only [checkActivity]
    exact notify_fired_sets _ _
  · intro td file inp h
    obtain ⟨-, h6, -, h8, -, h10, -⟩ := step_sameDay_flags td file inp h
    refine ⟨fun hx => ?_, fun hx => ?_, fun hx => ?_⟩
    · rw [h6, hx, Bool.true_or]
    · rw [h8, hx, Bool.true_or]
    · rw [h10, hx, Bool.true_or]

/-- C6 witness: a two-tick same-day run above the 6h threshold fires the
6-hour notification at most once; a firing step sets the flag; a set flag
survives a same-day tick. -/
theorem claim_C6_thresholds_witness :
    ((runTicks tdC6w (.ok emptyStore) inpsC6w).2.2.countP (fun f => f.h6)
        ≤ (if tdC6w.notificationsSent.h6 then 0 else 1)) ∧
    (checkActivity tdC6w (.ok emptyStore) inpC6w1).data.notificationsSent.h6 = true ∧
    (checkActivity tdC6w2 (.ok emptyStore) inpC6w1).data.notificationsSent.h6 = true :=
  ⟨(claim_C6_thresholds.1 tdC6w (.ok emptyStore) inpsC6w 0 rfl (by decide)).1,
   (claim_C6_thresholds.2.1 tdC6w (.ok emptyStore) inpC6w1).1 (by decide),
   (claim_C6_thresholds.2.2 tdC6w2 (.ok emptyStore) inpC6w1 (by decide)).1 (by decide)⟩

/-! ## Claim C7 — committed sessions are well-formed -/

/-- C7: any session present after a step — in the in-memory list or in any
date bucket of the file — was already there before the step, or is a
well-formed new session: `start < end`,
`duration = ⌊(end - start)/1000⌋`, and `duration > 0`.  In particular a
candidate whose computed duration is zero or negative is never appended
and never persisted. -/
theorem claim_C7_sessions_good (td : TrackingData) (file : FileState) (inp : TickInput)
    (d : Int) (s : Session)
    (hmem : s ∈ (checkActivity td file inp).data.sessions ∨
            s ∈ sessionsAt (checkActivity td file inp).file d) :
    s ∈ td.sessions ∨ s ∈ sessionsAt file d ∨ goodSession s := by
  rcases hmem with hm | hm
  · simp only [checkActivity] at hm
    rw [(notify_keeps _ _).1] at hm
    dsimp only at hm
    rcases transition_mem_data _ _ _ _ _ s hm with h1 | ⟨st, -, hseq, hpos⟩
    · exact Or.inl (rollover_mem_data _ _ _ s h1)
    · right; right; rw [hseq]; exact good_push st inp.now hpos
  · simp only [checkActivity] at hm
    rcases transition_mem_file _ _ _ _ _ d s hm with h1 | h1 | ⟨st, hseq, hpos⟩
    · rcases rollover_mem_file _ _ _ d s h1 with h2 | h2 | ⟨st, hseq, hpos⟩
      · exact Or.inr (Or.inl h2)
      · exact Or.inl h2
      · right; right; rw [hseq]; exact good_push st inp.now hpos
    · exact Or.inl (rollover_mem_data _ _ _ s h1)
    · right; right; rw [hseq]; exact good_push st inp.now hpos

/-- C7 witness: the pause-commit of a 4000 s session, checked against the
theorem at the appended session. -/
theorem claim_C7_sessions_good_witness :
    ((⟨1000000, 5000000, 4000⟩ : Session)
        ∈ (checkActivity tdC7w (.ok emptyStore) inpC7w).data.sessions ∨
      (⟨1000000, 5000000, 4000⟩ : Session)
        ∈ sessionsAt (checkActivity tdC7w (.ok emptyStore) inpC7w).file 0) ∧
    ((⟨1000000, 5000000, 4000⟩ : Session) ∈ tdC7w.sessions ∨
      (⟨1000000, 5000000, 4000⟩ : Session) ∈ sessionsAt (FileState.ok emptyStore) 0 ∨
      goodSession ⟨1000000, 5000000, 4000⟩) :=
  ⟨by decide,
   claim_C7_sessions_good tdC7w (.ok emptyStore) inpC7w 0 ⟨1000000, 5000000, 4000⟩ (by decide)⟩

/-! ## Claim C8 — Save mutates exactly one entry -/

/-- C8: `saveData` on a readable file rewrites the whole mapping with the
`dateKey` entry replaced by the recomputed day object and every other entry
unchanged (on a missing file it creates a mapping holding only that entry);
and across a whole step, every date key other than the `currentDate` values
in effect at the step's save points is untouched in the file. -/
theorem claim_C8_save_frame :
    (∀ (m : Store) (dateKey : Int) (ss : List Session) (k : Int), k ≠ dateKey →
      fileLookup (saveData (.ok m) dateKey ss) dateKey = some (mkDayObj ss) ∧
      fileLookup (saveData (.ok m) dateKey ss) k = m k ∧
      fileLookup (saveData .missing dateKey ss) dateKey = some (mkDayObj ss) ∧
      fileLookup (saveData .missing dateKey ss) k = none) ∧
    (∀ (td : TrackingData) (file : FileState) (inp : TickInput) (k : Int),
      k ≠ td.currentDate → k ≠ (checkActivity td file inp).data.currentDate →
      fileLookup (checkActivity td file inp).file k = fileLookup file k) := by
  constructor
  · intro m dateKey ss k hk
    refine ⟨?_, ?_, ?_, ?_⟩ <;>
      simp [saveData, fileLookup, storeSet, emptyStore, hk]
  · intro td file inp k h1 h2
    simp only [checkActivity] at h2 ⊢
    rw [(notify_keeps _ _).2.2.2] at h2
    dsimp only at h2
    rw [(transition_keeps _ _ _ _ _).1] at h2
    rw [transition_file_frame _ _ _ _ _ _ h2]
    exact rollover_file_frame _ _ _ _ h1

/-- C8 witness: the per-save frame at day key 3 with spectator key 5, and
the per-step frame at spectator key 9 across an idle same-day tick. -/
theorem claim_C8_save_frame_witness :
    (fileLookup (saveData (.ok storeC8) 3 [⟨0, 2000, 2⟩]) 3 = some (mkDayObj [⟨0, 2000, 2⟩]) ∧
     fileLookup (saveData (.ok storeC8) 3 [⟨0, 2000, 2⟩]) 5 = storeC8 5 ∧
     fileLookup (saveData .missing 3 [⟨0, 2000, 2⟩]) 3 = some (mkDayObj [⟨0, 2000, 2⟩]) ∧
     fileLookup (saveData .missing 3 [⟨0, 2000, 2⟩]) 5 = none) ∧
    fileLookup (checkActivity tdC8w (.ok storeC8) inpC8w).file 9
      = fileLookup (.ok storeC8) 9 :=
  ⟨claim_C8_save_frame.1 storeC8 3 [⟨0, 2000, 2⟩] 5 (by decide),
   claim_C8_save_frame.2 tdC8w (.ok storeC8) inpC8w 9 (by decide) (by decide)⟩

/-! ## Claim C9 — Load fails soft -/

/-- C9: loading never raises (it is a total function) and degrades to the
empty result: a missing or corrupt file leaves today's in-memory sessions
empty, and the on-demand history read returns the empty mapping in the
same two failure cases. -/
theorem claim_C9_load_fails_soft :
    (∀ t now : Int, (loadData .missing now (initialTrackingData t)).sessions = []) ∧
    (∀ t now : Int, (loadData .corrupt now (initialTrackingData t)).sessions = []) ∧
    (∀ k : Int, getHistory .missing k = none) ∧
    (∀ k : Int, getHistory .corrupt k = none) := by
  refine ⟨fun t now => rfl, fun t now => rfl, fun k => rfl, fun k => rfl⟩

/-! ## Claim C10 — notification flags are process-lifetime only -/

/-- C10: loading any file state leaves all three notification flags `false`
(they are not persisted, hence not restored — the saved day object has no
flag field at all); concretely, after restarting mid-day over a file whose
same-day total already exceeds 6 h, the very next working tick fires the
6-hour notification again for the same local day. -/
theorem claim_C10_flags_not_persisted :
    (∀ (file : FileState) (now t : Int),
      (loadData file now (initialTrackingData t)).notificationsSent = ⟨false, false, false⟩) ∧
    (checkActivity (loadData fileC10 0 (initialTrackingData 0)) fileC10
      { now := 22100000, chrome := .ok true, idle := .lib 0 }).fired.h6 = true := by
  constructor
  · intro file now t
    cases file with
    | missing => rfl
    | corrupt => rfl
    | ok m =>
        simp only [loadData]
        cases m (getLocalDateStr now) with
        | none => rfl
        | some v => cases v <;> rfl
  · decide
